import Mathlib

/-!
Verification development for the synthetic corporate-data generator of the
SEED dashboard repository (`src/modules/data_generator.py`).

The generator is embedded shallowly: every pseudo-random quantity drawn by
the Python code (indices of weighted categorical choices, unit-interval
uniform draws, normal / gamma / beta / exponential sample values, Poisson
counts) is supplied as an explicit input in a `Draws` record, and each field
of a generated company is computed from those inputs by exactly the formula
the source uses.  Uniform draws `np.random.uniform(a, b)` are modelled as
`a + (b - a) * u` for a unit draw `u`; bounded integer draws
`np.random.randint(a, b)` as `a + n % (b - a)`; bounded categorical choices
as `Fin`-typed indices into the literal tables of the source.  Real numbers
are modelled as `ℚ`; timestamps as an abstract integer day count `now`.
-/

namespace SeedGen

/-- Qualitative industry impact tier of the source distribution tables
(`env_impact` entries low / medium / high). -/
inductive ImpactTier where
  | low
  | medium
  | high
deriving DecidableEq

/-- One row of the `states` table of `generate_corporate_data`
(data_generator.py lines 668-684): abbreviation, name, weight, region. -/
structure StateInfo where
  abbr : String
  sname : String
  weight : ℚ
  region : String
deriving DecidableEq

/-- The 15-state table of `generate_corporate_data` (lines 668-684). -/
def statesTable : List StateInfo :=
  [⟨"CA", "California", 15/100, "West"⟩,
   ⟨"NY", "New York", 12/100, "Northeast"⟩,
   ⟨"TX", "Texas", 10/100, "South"⟩,
   ⟨"FL", "Florida", 8/100, "South"⟩,
   ⟨"IL", "Illinois", 7/100, "Midwest"⟩,
   ⟨"MA", "Massachusetts", 6/100, "Northeast"⟩,
   ⟨"WA", "Washington", 6/100, "West"⟩,
   ⟨"PA", "Pennsylvania", 5/100, "Northeast"⟩,
   ⟨"OH", "Ohio", 5/100, "Midwest"⟩,
   ⟨"GA", "Georgia", 5/100, "South"⟩,
   ⟨"MI", "Michigan", 5/100, "Midwest"⟩,
   ⟨"MN", "Minnesota", 4/100, "Midwest"⟩,
   ⟨"CO", "Colorado", 4/100, "West"⟩,
   ⟨"NC", "North Carolina", 4/100, "South"⟩,
   ⟨"NJ", "New Jersey", 4/100, "Northeast"⟩]

/-- One row of the `industries` table (lines 691-703). -/
structure IndustryInfo where
  iname : String
  weight : ℚ
  envImpact : ImpactTier
  sic : String
deriving DecidableEq

/-- The 11-industry table of `generate_corporate_data` (lines 691-703). -/
def industriesTable : List IndustryInfo :=
  [⟨"Energy", 11/100, .high, "1311"⟩,
   ⟨"Technology", 15/100, .low, "7370"⟩,
   ⟨"Manufacturing", 15/100, .high, "3711"⟩,
   ⟨"Retail", 10/100, .medium, "5331"⟩,
   ⟨"Healthcare", 10/100, .low, "8000"⟩,
   ⟨"Financial Services", 8/100, .low, "6021"⟩,
   ⟨"Food & Beverage", 8/100, .medium, "2080"⟩,
   ⟨"Transportation", 6/100, .high, "4512"⟩,
   ⟨"Telecommunications", 5/100, .low, "4813"⟩,
   ⟨"Chemical", 5/100, .high, "2800"⟩,
   ⟨"Construction", 7/100, .medium, "1531"⟩]

/-- One row of the `sizes` table (lines 709-714). -/
structure SizeTier where
  sname : String
  weight : ℚ
  minRev : ℚ
  maxRev : ℚ
  transparencyFactor : ℚ
deriving DecidableEq

/-- The four size tiers of `generate_corporate_data` (lines 709-714). -/
def sizesTable : List SizeTier :=
  [⟨"Small ($10M-$100M)", 4/10, 10, 100, 5/10⟩,
   ⟨"Medium ($100M-$1B)", 3/10, 100, 1000, 7/10⟩,
   ⟨"Large ($1B-$10B)", 2/10, 1000, 10000, 85/100⟩,
   ⟨"Very Large (>$10B)", 1/10, 10000, 50000, 95/100⟩]

/-- Company name components (lines 721-723). -/
def namePfxs : List String :=
  ["Global", "American", "International", "National", "United", "Allied",
   "Pacific", "Atlantic", "Advanced", "Strategic", "Superior", "Prime",
   "Pinnacle", "Summit", "Elite", "Modern", "Capital", "Consolidated"]

/-- Company name components (lines 725-727). -/
def nameSfxs : List String :=
  ["Corp", "Inc", "Corporation", "Industries", "Group", "Partners",
   "Enterprises", "Holdings", "Solutions", "Systems", "Technologies",
   "Innovations", "Resources", "Associates", "International", "Worldwide"]

/-- Industry-specific name word lists (lines 729-741). -/
def industryWordsTable : List (String × List String) :=
  [("Energy", ["Energy", "Power", "Gas", "Oil", "Solar", "Renewables"]),
   ("Technology", ["Tech", "Digital", "Software", "Systems", "Computing", "Data"]),
   ("Manufacturing", ["Manufacturing", "Industrial", "Products", "Fabrication"]),
   ("Retail", ["Retail", "Stores", "Consumer", "Marketplace", "Shopping"]),
   ("Healthcare", ["Health", "Medical", "Care", "Wellness", "Pharmaceuticals"]),
   ("Financial Services", ["Financial", "Banking", "Investments", "Capital", "Credit"]),
   ("Food & Beverage", ["Foods", "Beverages", "Nutrition", "Dining"]),
   ("Transportation", ["Transport", "Logistics", "Shipping", "Freight", "Carriers"]),
   ("Telecommunications", ["Telecom", "Communications", "Network", "Wireless"]),
   ("Chemical", ["Chemical", "Materials", "Polymers", "Compounds"]),
   ("Construction", ["Construction", "Building", "Development", "Properties", "Structures"])]

/-- The 12 environmental cause areas (lines 744-757). -/
def environmentalCauses : List String :=
  ["Climate Change Mitigation",
   "Renewable Energy",
   "Habitat Conservation",
   "Biodiversity Protection",
   "Ocean Conservation",
   "Water Resource Protection",
   "Sustainable Agriculture",
   "Environmental Justice",
   "Environmental Education",
   "Waste Reduction & Recycling",
   "Air Quality Improvement",
   "Sustainable Transportation"]

/-- The five transparency reporting metrics (lines 760-766). -/
def transparencyMetrics : List String :=
  ["Environmental Impact Disclosure",
   "Giving Strategy Documentation",
   "Goal Setting and Progress Tracking",
   "Third-Party Verification",
   "Stakeholder Engagement"]

/-- The five reporting levels (line 769). -/
def reportingLevels : List String :=
  ["Minimal", "Basic", "Standard", "Detailed", "Comprehensive"]

/-- Street name vocabulary (line 832). -/
def streetNames : List String :=
  ["Main St", "Park Ave", "Broadway", "Market St", "Oak St", "Washington Ave", "5th Ave", "1st St"]

/-- City lists per state (lines 835-851). -/
def citiesTable : List (String × List String) :=
  [("CA", ["Los Angeles", "San Francisco", "San Diego", "San Jose"]),
   ("NY", ["New York", "Buffalo", "Rochester", "Syracuse"]),
   ("TX", ["Houston", "Dallas", "Austin", "San Antonio"]),
   ("FL", ["Miami", "Orlando", "Tampa", "Jacksonville"]),
   ("IL", ["Chicago", "Springfield", "Peoria", "Rockford"]),
   ("MA", ["Boston", "Cambridge", "Worcester", "Springfield"]),
   ("WA", ["Seattle", "Tacoma", "Spokane", "Bellevue"]),
   ("PA", ["Philadelphia", "Pittsburgh", "Allentown", "Erie"]),
   ("OH", ["Columbus", "Cleveland", "Cincinnati", "Toledo"]),
   ("GA", ["Atlanta", "Savannah", "Augusta", "Athens"]),
   ("MI", ["Detroit", "Grand Rapids", "Ann Arbor", "Lansing"]),
   ("MN", ["Minneapolis", "Saint Paul", "Rochester", "Duluth"]),
   ("CO", ["Denver", "Colorado Springs", "Boulder", "Fort Collins"]),
   ("NC", ["Charlotte", "Raleigh", "Greensboro", "Durham"]),
   ("NJ", ["Newark", "Jersey City", "Paterson", "Atlantic City"])]

/-- Fallback rows used by total lookups; index draws are `Fin`-typed so these
defaults are never reached for in-range draws. -/
def dfltState : StateInfo := ⟨"CA", "California", 15/100, "West"⟩

/-- Fallback industry row for total lookups. -/
def dfltIndustry : IndustryInfo := ⟨"Energy", 11/100, .high, "1311"⟩

/-- Fallback size row for total lookups. -/
def dfltSize : SizeTier := ⟨"Small ($10M-$100M)", 4/10, 10, 100, 5/10⟩

/-- All pseudo-random quantities consumed for one company by
`generate_corporate_data` (lines 774-983), supplied as explicit inputs. -/
structure Draws where
  stateIdx : Fin 15
  industryIdx : Fin 11
  sizeIdx : Fin 4
  uRevenue : ℚ
  uBaseGivingPct : ℚ
  industryWordIdx : ℕ
  uNameStyle : ℚ
  namePfxIdx : ℕ
  nameSfxIdx : ℕ
  streetNumDraw : ℕ
  streetIdx : ℕ
  cityIdx : ℕ
  latNoise : ℚ
  lonNoise : ℚ
  transparencyNormal : ℚ
  metricNoise : List ℚ
  impactGamma : ℚ
  uEmissions : ℚ
  uWater : ℚ
  uWaste : ℚ
  uEnergy : ℚ
  uLoss : ℚ
  uRemediation : ℚ
  poissonCount : ℕ
  esgNoise : ℚ
  ncDraw : ℕ
  causeIdxs : List ℕ
  dirichletWs : List ℚ
  uLocalBeta : ℚ
  filingDaysAgo : ℕ
  uMkt : ℚ

/-- State row selected by the weighted categorical draw (lines 776-777). -/
def stateOfDraws (d : Draws) : StateInfo := statesTable.getD d.stateIdx.val dfltState

/-- Industry row selected by the weighted categorical draw (lines 780-781). -/
def industryOfDraws (d : Draws) : IndustryInfo := industriesTable.getD d.industryIdx.val dfltIndustry

/-- Size row selected by the weighted categorical draw (lines 784-785). -/
def sizeOfDraws (d : Draws) : SizeTier := sizesTable.getD d.sizeIdx.val dfltSize

/-- Source formula `revenue = np.random.uniform(size.min_rev, size.max_rev)` (line 788). -/
def revenueOf (d : Draws) : ℚ :=
  (sizeOfDraws d).minRev + ((sizeOfDraws d).maxRev - (sizeOfDraws d).minRev) * d.uRevenue

/-- Source formula `base_giving_pct = np.random.uniform(0.01, 0.5)` (line 792). -/
def baseGivingPctOf (d : Draws) : ℚ := 1/100 + (5/10 - 1/100) * d.uBaseGivingPct

/-- Industry giving factor (lines 794-799): high 1.5, medium 1.0, low 0.7. -/
def givingFactor : ImpactTier → ℚ
  | .high => 3/2
  | .medium => 1
  | .low => 7/10

/-- Python `str.startswith`, evaluated on the character lists (semantically
the library `String.startsWith`, stated structurally so that concrete
instances reduce). -/
def strStartsWith (s p : String) : Bool := p.data.isPrefixOf s.data

/-- Size giving factor (lines 802-809): Small 1.2, Medium 1.0, Large 0.8, else 0.6. -/
def sizeGivingFactor (s : String) : ℚ :=
  if strStartsWith s "Small" then 6/5
  else if strStartsWith s "Medium" then 1
  else if strStartsWith s "Large" then 4/5
  else 3/5

/-- Source formula `env_giving_pct = base_giving_pct * giving_factor * size_giving_factor` (line 812). -/
def envGivingPctOf (d : Draws) : ℚ :=
  baseGivingPctOf d * givingFactor (industryOfDraws d).envImpact
    * sizeGivingFactor (sizeOfDraws d).sname

/-- Source formula `env_giving = revenue * (env_giving_pct / 100)` (line 813). -/
def envGivingOf (d : Draws) : ℚ := revenueOf d * (envGivingPctOf d / 100)

/-- Source formula `transparency_score = clamp(np.random.normal(50, 15) * size.transparency_factor)`
(lines 856-857); the normal sample value is the draw. -/
def transparencyScoreOf (d : Draws) : ℚ :=
  max 0 (min 100 (d.transparencyNormal * (sizeOfDraws d).transparencyFactor))

/-- Reporting level thresholds used for current companies
(data_generator.py lines 859-868). -/
def reportingLevel (s : ℚ) : String :=
  if s < 20 then "Minimal"
  else if s < 40 then "Basic"
  else if s < 60 then "Standard"
  else if s < 80 then "Detailed"
  else "Comprehensive"

/-- Source formula `score_{metric.lower().replace(' ', '_')}` key construction (line 880). -/
def metricKey (m : String) : String :=
  "score_" ++ (m.toLower.map fun c => if c = ' ' then '_' else c)

/-- Transparency sub-metric scores (lines 874-881): per metric,
`clamp10(transparency_score / 10 + Normal(0,1) noise)`. -/
def metricScoresOf (d : Draws) : List (String × ℚ) :=
  transparencyMetrics.enum.map fun p =>
    (metricKey p.2, max 0 (min 10 (transparencyScoreOf d / 10 + d.metricNoise.getD p.1 0)))

/-- Industry impact factor (lines 887-892): high 3.0, medium 1.8, low 1.0. -/
def impactFactor : ImpactTier → ℚ
  | .high => 3
  | .medium => 9/5
  | .low => 1

/-- Size impact factor (lines 895-902): Small 0.7, Medium 1.0, Large 2.0, else 4.0. -/
def sizeImpactFactor (s : String) : ℚ :=
  if strStartsWith s "Small" then 7/10
  else if strStartsWith s "Medium" then 1
  else if strStartsWith s "Large" then 2
  else 4

/-- Source formula `environmental_impact = min(100, gamma_base * impact_factor * size_impact_factor)`
(lines 885-905); the Gamma(2,10) sample value is the draw. -/
def environmentalImpactOf (d : Draws) : ℚ :=
  min 100 (d.impactGamma * impactFactor (industryOfDraws d).envImpact
    * sizeImpactFactor (sizeOfDraws d).sname)

/-- Source formula `incident_lambda = max(0.1, impact_factor - 1) * size_impact_factor * 0.5`
(line 926); the Poisson rate (the count itself is the `poissonCount` draw). -/
def incidentLambdaOf (d : Draws) : ℚ :=
  max (1/10) (impactFactor (industryOfDraws d).envImpact - 1)
    * sizeImpactFactor (sizeOfDraws d).sname * (1/2)

/-- Number of supported cause areas (lines 950-960): a size-dependent
`randint` then `min(num_causes, len(environmental_causes))`. -/
def numCausesOf (d : Draws) : ℕ :=
  let s := (sizeOfDraws d).sname
  let n0 :=
    if strStartsWith s "Small" then 1 + d.ncDraw % 3
    else if strStartsWith s "Medium" then 2 + d.ncDraw % 4
    else if strStartsWith s "Large" then 3 + d.ncDraw % 5
    else 4 + d.ncDraw % 9
  min n0 environmentalCauses.length

/-- Source formula `giving_{cause.lower().replace(' ', '_')}` key construction (line 970). -/
def causeKey (c : String) : String :=
  "giving_" ++ (c.toLower.map fun ch => if ch = ' ' then '_' else ch)

/-- Cause areas selected without replacement (line 963), modelled by the
drawn index list. -/
def selectedCausesOf (d : Draws) : List String :=
  (d.causeIdxs.take (numCausesOf d)).map fun j => environmentalCauses.getD j ""

/-- Dirichlet split of the giving amount over the selected causes
(lines 967-970): `env_giving * weight` per selected cause. -/
def causeAmountsOf (d : Draws) : List (String × ℚ) :=
  List.zipWith (fun c w => (causeKey c, envGivingOf d * w))
    (selectedCausesOf d) (d.dirichletWs.take (numCausesOf d))

/-- One generated company row: the fields of `company_data`
(data_generator.py lines 986-1026). -/
structure Company where
  company_id : ℕ
  company_name : String
  state : String
  state_name : String
  region : String
  industry : String
  sic_code : String
  size : String
  revenue_millions : ℚ
  env_giving_millions : ℚ
  env_giving_pct : ℚ
  transparency_score : ℚ
  reporting_level : String
  detail_level : ℕ
  address : String
  city : String
  latitude : ℚ
  longitude : ℚ
  environmental_impact_score : ℚ
  emissions_tons : ℚ
  water_usage_gallons : ℚ
  waste_tons : ℚ
  energy_consumption_mwh : ℚ
  env_loss_contingencies_millions : ℚ
  env_remediation_expenses_millions : ℚ
  incident_count : ℕ
  esg_score : ℚ
  local_giving_pct : ℚ
  local_giving_millions : ℚ
  national_giving_millions : ℚ
  date_of_filing : ℤ
  marketing_claims_intensity : ℚ
  marketing_vs_giving_gap : ℚ
  transparency_metric_scores : List (String × ℚ)
  cause_amounts : List (String × ℚ)

/-- The per-company body of `generate_corporate_data` (lines 774-1029):
each field computed by the source formula from the draws `d`, the loop
index `i` and the current timestamp `now` (an abstract day count). -/
def generateCompany (d : Draws) (i : ℕ) (now : ℤ) : Company :=
  let st := stateOfDraws d
  let ind := industryOfDraws d
  let size := sizeOfDraws d
  let iwords := ((industryWordsTable.lookup ind.iname).getD [""])
  let iword := iwords.getD (d.industryWordIdx % iwords.length) ""
  let pfx := namePfxs.getD (d.namePfxIdx % namePfxs.length) ""
  let sfx := nameSfxs.getD (d.nameSfxIdx % nameSfxs.length) ""
  let company_name :=
    if iword ≠ "" ∧ d.uNameStyle < 7/10 then pfx ++ " " ++ iword ++ " " ++ sfx
    else pfx ++ " " ++ sfx
  let street_number := 100 + d.streetNumDraw % 9899
  let street := toString street_number ++ " " ++ streetNames.getD (d.streetIdx % streetNames.length) ""
  let cityList := (citiesTable.lookup st.abbr).getD ["Unknown City"]
  let city := cityList.getD (d.cityIdx % cityList.length) "Unknown City"
  let transparency_score := transparencyScoreOf d
  let rlevel := reportingLevel transparency_score
  let detail_level := if rlevel = "Detailed" ∨ rlevel = "Comprehensive" then 1 else 0
  let environmental_impact := environmentalImpactOf d
  let env_giving := envGivingOf d
  let env_giving_pct := envGivingPctOf d
  let local_giving_pct := d.uLocalBeta * 100
  let local_giving := env_giving * (local_giving_pct / 100)
  let mkt := 100 * d.uMkt
  { company_id := i
    company_name := company_name
    state := st.abbr
    state_name := st.sname
    region := st.region
    industry := ind.iname
    sic_code := ind.sic
    size := size.sname
    revenue_millions := revenueOf d
    env_giving_millions := env_giving
    env_giving_pct := env_giving_pct
    transparency_score := transparency_score
    reporting_level := rlevel
    detail_level := detail_level
    address := street
    city := city
    latitude := 370902/10000 + d.latNoise
    longitude := -957129/10000 + d.lonNoise
    environmental_impact_score := environmental_impact
    emissions_tons := environmental_impact * 1000 * (8/10 + (4/10) * d.uEmissions)
    water_usage_gallons := environmental_impact * 5000 * (7/10 + (6/10) * d.uWater)
    waste_tons := environmental_impact * 100 * (6/10 + (8/10) * d.uWaste)
    energy_consumption_mwh := environmental_impact * 500 * (3/4 + (1/2) * d.uEnergy)
    env_loss_contingencies_millions := environmental_impact * (1/2) * (6/10 + (8/10) * d.uLoss)
    env_remediation_expenses_millions := environmental_impact * (3/10) * (7/10 + (6/10) * d.uRemediation)
    incident_count := d.poissonCount
    esg_score := max 0 (min 100 (60 + env_giving_pct * 10 + (-(environmental_impact) * (1/10))
      + transparency_score * (2/10) + d.esgNoise))
    local_giving_pct := local_giving_pct
    local_giving_millions := local_giving
    national_giving_millions := env_giving - local_giving
    date_of_filing := now - ((d.filingDaysAgo % 365 : ℕ) : ℤ)
    marketing_claims_intensity := mkt
    marketing_vs_giving_gap := mkt - env_giving_pct * 100
    transparency_metric_scores := metricScoresOf d
    cause_amounts := causeAmountsOf d }

/-- The company loop of `generate_corporate_data` (line 774): `n` companies
with ids `0..n-1`, each from its own draws. -/
def generateCompanies (d : ℕ → Draws) (n : ℕ) (now : ℤ) : List Company :=
  (List.range n).map fun i => generateCompany (d i) i now

/-- Erase the only clock-dependent column (`date_of_filing`, lines 977-979
and 1017) of a company row. -/
def companyStatic (c : Company) : Company := { c with date_of_filing := 0 }

/-! ## Incident generator (`generate_incident_data`, lines 397-514) -/

/-- The columns of the input frame that `generate_incident_data` reads
(company_id, company_name, state, industry, size, latitude, longitude,
incident_count); `incident_count` is `Option`-valued to model the
`pd.notna` check of line 410 on a possibly-missing value. -/
structure IncidentInput where
  company_id : ℕ
  company_name : String
  state : String
  industry : String
  size : String
  latitude : ℚ
  longitude : ℚ
  incident_count : Option ℚ
deriving DecidableEq

/-- Pseudo-random quantities consumed per generated incident
(lines 412-474); bounded categorical and integer draws are `Fin`-typed. -/
structure IncidentDraws where
  sevIdx : Fin 5
  typeIdx : Fin 5
  latJitter : ℚ
  lonJitter : ℚ
  expDraw : ℕ
  countyDirIdx : Fin 7
  countyFeatIdx : Fin 8
  distanceLn : ℚ
  uEj : ℚ
  uPd : ℚ
  lagFast : Fin 5
  lagSlow : Fin 85
  ciOff : Fin 3
  uRemCost : ℚ

/-- Industry-conditioned incident type vocabulary (lines 416-427). -/
def incidentTypesFor (industry : String) : List String :=
  if industry = "Energy" then
    ["Oil Spill", "Gas Leak", "Emissions Exceedance", "Water Contamination", "Permit Violation"]
  else if industry = "Manufacturing" ∨ industry = "Chemical" then
    ["Chemical Spill", "Waste Disposal Violation", "Emissions Exceedance", "Water Contamination", "Permit Violation"]
  else if industry = "Transportation" then
    ["Fuel Spill", "Emissions Exceedance", "Noise Violation", "Waste Disposal Violation", "Permit Violation"]
  else
    ["Waste Disposal Violation", "Permit Violation", "Emissions Exceedance", "Water Usage Violation", "Material Spill"]

/-- Severity-indexed impact descriptions (lines 445-451). -/
def impactDescriptionFor (severity : ℕ) : String :=
  if severity = 1 then "Minor incident with minimal environmental impact. Quickly contained and remediated."
  else if severity = 2 then "Minor incident affecting a limited area. Required standard cleanup procedures."
  else if severity = 3 then "Moderate incident with localized environmental effects. Required significant remediation."
  else if severity = 4 then "Serious incident with substantial environmental impact. Extended remediation required."
  else "Major incident with significant environmental damage. Long-term remediation ongoing."

/-- County name word lists (line 454). -/
def countyDirections : List String :=
  ["North", "South", "East", "West", "Central", "Upper", "Lower"]

/-- County name word lists (line 454). -/
def countyFeatures : List String :=
  ["Ridge", "Valley", "Creek", "River", "Lake", "Woods", "Plains", "Hills"]

/-- Size multiplier of the remediation cost (lines 490-492): Very Large 4.0,
Large 2.0, Medium 1.0, otherwise 0.5, by `startswith` tests in that order. -/
def sizeMultiplier (s : String) : ℚ :=
  if strStartsWith s "Very Large" then 4
  else if strStartsWith s "Large" then 2
  else if strStartsWith s "Medium" then 1
  else 1/2

/-- Calendar year of an abstract day count; stands in for Python's
`date.year` (no claim depends on its exact value). -/
def dateYear (d : ℤ) : ℤ := 1970 + Int.fdiv d 365

/-- One generated incident record: the 18 keys of the dict literal at
lines 477-499, in source order. -/
structure Incident where
  company_id : ℕ
  company_name : String
  state : String
  industry : String
  incident_type : String
  severity : ℕ
  latitude : ℚ
  longitude : ℚ
  date : ℤ
  year : ℤ
  impact_description : String
  remediation_cost_millions : ℚ
  county : String
  distance_to_population_miles : ℚ
  in_environmental_justice_community : Bool
  prompt_disclosure : Bool
  disclosure_lag_days : ℕ
  community_impact_rating : ℤ
deriving DecidableEq

/-- The per-incident body of `generate_incident_data` (lines 412-499):
severity from the weighted 1-5 choice, type from the industry vocabulary,
company location plus Gaussian jitter clamped to [25,49] x [-125,-65],
date `now` minus `int(Exponential(365)) % 1825` days, and the derived
disclosure / justice-community / cost fields. -/
def generateIncident (r : IncidentInput) (d : IncidentDraws) (now : ℤ) : Incident :=
  let severity := d.sevIdx.val + 1
  let itype := (incidentTypesFor r.industry).getD d.typeIdx.val ""
  let latitude := max 25 (min 49 (r.latitude + d.latJitter))
  let longitude := max (-125) (min (-65) (r.longitude + d.lonJitter))
  let days_ago := d.expDraw % 1825
  let incident_date := now - (days_ago : ℤ)
  let county := countyDirections.getD d.countyDirIdx.val "" ++ " "
    ++ countyFeatures.getD d.countyFeatIdx.val "" ++ " County"
  let ej_probability : ℚ := 2/10 + (severity : ℚ) * (1/10)
  let in_ej_community := decide (d.uEj < ej_probability)
  let prompt_disclosure := decide (d.uPd < 9/10 - (severity : ℚ) * (1/10))
  let disclosure_lag := if prompt_disclosure then d.lagFast.val else 5 + d.lagSlow.val
  let community_impact := min 5 ((severity : ℤ) + ((d.ciOff.val : ℤ) - 1))
  { company_id := r.company_id
    company_name := r.company_name
    state := r.state
    industry := r.industry
    incident_type := itype
    severity := severity
    latitude := latitude
    longitude := longitude
    date := incident_date
    year := dateYear incident_date
    impact_description := impactDescriptionFor severity
    remediation_cost_millions := (severity : ℚ) * (5/100 + (15/100) * d.uRemCost)
      * sizeMultiplier r.size
    county := county
    distance_to_population_miles := d.distanceLn
    in_environmental_justice_community := in_ej_community
    prompt_disclosure := prompt_disclosure
    disclosure_lag_days := disclosure_lag
    community_impact_rating := community_impact }

/-- The per-company guard and loop of `generate_incident_data`
(lines 409-411): `if pd.notna(count) and count > 0: for _ in
range(int(count))`; `int` truncation of a positive rational is its floor. -/
def incidentsForRow (r : IncidentInput) (d : ℕ → IncidentDraws) (now : ℤ) : List Incident :=
  match r.incident_count with
  | none => []
  | some c =>
      if 0 < c then (List.range (⌊c⌋.toNat)).map fun j => generateIncident r (d j) now
      else []

/-- The explicit column list of the empty-result branch (lines 506-512). -/
def incidentEmptyColumns : List String :=
  ["company_id", "company_name", "state", "industry", "incident_type",
   "severity", "latitude", "longitude", "date", "year",
   "impact_description", "remediation_cost_millions", "county",
   "distance_to_population_miles", "in_environmental_justice_community",
   "prompt_disclosure", "disclosure_lag_days", "community_impact_rating"]

/-- Key order of the incident dict literal (lines 477-499), which becomes
the column order of the non-empty result frame. -/
def incidentRecordKeys : List String := incidentEmptyColumns

/-- A dataframe of incidents: a column list plus its rows. -/
structure IncidentTable where
  columns : List String
  rows : List Incident
deriving DecidableEq

/-- Source formula `generate_incident_data` (lines 397-514): concatenate the per-company
incident lists; an empty result is replaced by an empty frame carrying the
explicit 18-column schema. -/
def generate_incident_data (rows : List IncidentInput) (d : ℕ → ℕ → IncidentDraws)
    (now : ℤ) : IncidentTable :=
  let data := (rows.enum.map fun p => incidentsForRow p.2 (d p.1) now).flatten
  if data.isEmpty then ⟨incidentEmptyColumns, []⟩
  else ⟨incidentRecordKeys, data⟩

/-! ## Historical trend generator (`generate_historical_data`, lines 253-395) -/

/-- The year range `list(range(2020, now.year + 1))` (line 264). -/
def historyYears (currentYear : ℤ) : List ℤ :=
  (List.range (currentYear - 2020 + 1).toNat).map fun k => 2020 + (k : ℤ)

/-- Source formula `year_factor = (year - 2019) * 0.05` of the transparency series
(line 277). -/
def transparencyYearFactor (year : ℤ) : ℚ := ((year : ℚ) - 2019) * (5/100)

/-- Source formula `historical_score = clamp100(current * (1 - year_factor) + Normal(0,5))`
(lines 278-279). -/
def historicalTransparencyScore (current : ℚ) (year : ℤ) (noise : ℚ) : ℚ :=
  max 0 (min 100 (current * (1 - transparencyYearFactor year) + noise))

/-- Reporting level thresholds recomputed for historical records
(data_generator.py lines 282-291). -/
def historicalReportingLevel (s : ℚ) : String :=
  if s < 20 then "Minimal"
  else if s < 40 then "Basic"
  else if s < 60 then "Standard"
  else if s < 80 then "Detailed"
  else "Comprehensive"

/-- Source formula `year_factor = 1 - ((year - 2019) * 0.07)` of the giving series
(line 316). -/
def givingYearFactor (year : ℤ) : ℚ := 1 - ((year : ℚ) - 2019) * (7/100)

/-- Source formula `historical_giving = current * year_factor * Uniform(0.9, 1.1)`
(line 317), with the uniform draw modelled as `0.9 + 0.2 * u`. -/
def historicalGivingValue (current : ℚ) (year : ℤ) (u : ℚ) : ℚ :=
  current * givingYearFactor year * (9/10 + (2/10) * u)

/-- Source formula `historical_revenue = current * (1 - (year - 2019) * 0.04) * Uniform(0.95, 1.05)`
(line 320). -/
def historicalRevenueValue (current : ℚ) (year : ℤ) (u : ℚ) : ℚ :=
  current * (1 - ((year : ℚ) - 2019) * (4/100)) * (95/100 + (1/10) * u)

/-- Source formula `historical_giving_pct = giving / revenue * 100` when revenue is
positive, else 0 (lines 323-326). -/
def historicalGivingPct (giving revenue : ℚ) : ℚ :=
  if 0 < revenue then giving / revenue * 100 else 0

/-- Source formula `year_factor = 1 - ((year - 2019) * 0.02)` of the impact series
(line 353). -/
def impactYearFactor (year : ℤ) : ℚ := 1 - ((year : ℚ) - 2019) * (2/100)

/-- Source formula `historical_impact = current * year_factor * Uniform(0.95, 1.05)`
(line 354). -/
def historicalImpactValue (current : ℚ) (year : ℤ) (u : ℚ) : ℚ :=
  current * impactYearFactor year * (95/100 + (1/10) * u)

/-- Source formula `historical_emissions = current * year_factor * Uniform(0.9, 1.1)`
(line 357). -/
def historicalEmissionsValue (current : ℚ) (year : ℤ) (u : ℚ) : ℚ :=
  current * impactYearFactor year * (9/10 + (2/10) * u)

/-! ## Geographic aggregator (`generate_geographic_data`, lines 27-96)

The derived-metric divisions of lines 60-78 run on IEEE-754 float columns,
so a zero divisor silently produces an infinity (positive numerator) or a
NaN (zero numerator).  `PFloat` models exactly that arithmetic. -/

/-- IEEE-style float value: a finite rational, a signed infinity, or NaN. -/
inductive PFloat where
  | val (q : ℚ)
  | inf
  | neginf
  | nan
deriving DecidableEq

/-- IEEE division as numpy/pandas performs it on float columns: a finite
nonzero value divided by zero is a signed infinity, `0/0` is NaN. -/
def PFloat.fdiv : PFloat → PFloat → PFloat
  | .nan, _ => .nan
  | _, .nan => .nan
  | .val a, .val b =>
      if b = 0 then (if 0 < a then .inf else if a < 0 then .neginf else .nan)
      else .val (a / b)
  | .val _, .inf => .val 0
  | .val _, .neginf => .val 0
  | .inf, .val b => if 0 ≤ b then .inf else .neginf
  | .neginf, .val b => if 0 ≤ b then .neginf else .inf
  | .inf, .inf => .nan
  | .inf, .neginf => .nan
  | .neginf, .inf => .nan
  | .neginf, .neginf => .nan

/-- IEEE multiplication for the cases the aggregator reaches. -/
def PFloat.fmul : PFloat → PFloat → PFloat
  | .nan, _ => .nan
  | _, .nan => .nan
  | .val a, .val b => .val (a * b)
  | .val a, .inf => if 0 < a then .inf else if a < 0 then .neginf else .nan
  | .inf, .val a => if 0 < a then .inf else if a < 0 then .neginf else .nan
  | .val a, .neginf => if 0 < a then .neginf else if a < 0 then .inf else .nan
  | .neginf, .val a => if 0 < a then .neginf else if a < 0 then .inf else .nan
  | .inf, .inf => .inf
  | .neginf, .neginf => .inf
  | .inf, .neginf => .neginf
  | .neginf, .inf => .neginf

/-- The per-company columns consumed by the state-level `groupby.agg` of
lines 40-49 (plus `revenue_millions` for the optional merge of lines 63-66). -/
structure GeoInput where
  env_giving : ℚ
  local_giving : ℚ
  national_giving : ℚ
  transparency : ℚ
  impact : ℚ
  incidents : ℚ
  esg : ℚ
  revenue : ℚ
deriving DecidableEq

/-- One aggregated state row after the `groupby.agg` and the revenue merge
(lines 40-66): count, sums and means of the grouped columns. -/
structure GeoRow where
  numCompanies : ℕ
  envGivingSum : ℚ
  localGivingSum : ℚ
  nationalGivingSum : ℚ
  avgTransparency : ℚ
  avgImpact : ℚ
  incidentSum : ℚ
  avgEsg : ℚ
  revenueSum : ℚ
deriving DecidableEq

/-- The `groupby(state).agg` of lines 40-49 applied to the companies of one
state group: count, `sum` columns and `mean` columns (a pandas group is
never empty, so the means divide by a positive count). -/
def stateAggregate (cs : List GeoInput) : GeoRow :=
  { numCompanies := cs.length
    envGivingSum := (cs.map GeoInput.env_giving).sum
    localGivingSum := (cs.map GeoInput.local_giving).sum
    nationalGivingSum := (cs.map GeoInput.national_giving).sum
    avgTransparency := (cs.map GeoInput.transparency).sum / (cs.length : ℚ)
    avgImpact := (cs.map GeoInput.impact).sum / (cs.length : ℚ)
    incidentSum := (cs.map GeoInput.incidents).sum
    avgEsg := (cs.map GeoInput.esg).sum / (cs.length : ℚ)
    revenueSum := (cs.map GeoInput.revenue).sum }

/-- The derived metrics a state row gains (lines 60-78), computed with the
float arithmetic pandas uses. -/
structure GeoDerived where
  avg_giving_per_company : PFloat
  local_giving_pct : PFloat
  giving_pct_of_revenue : PFloat
  incident_density : PFloat
  givingToImpact : PFloat
deriving DecidableEq

/-- Lines 60-78 of `generate_geographic_data`:
`avg_giving_per_company = giving / num_companies`,
`local_giving_pct = (local / giving) * 100`,
`giving_pct_of_revenue = (giving / revenue) * 100`,
`incident_density = incidents / num_companies`, and the
`giving_to_impact_ratio` column `giving / (avg_impact * num_companies / 100)`.
None of the divisions is guarded. -/
def derivedMetrics (r : GeoRow) : GeoDerived :=
  { avg_giving_per_company := PFloat.fdiv (.val r.envGivingSum) (.val (r.numCompanies : ℚ))
    local_giving_pct := PFloat.fmul (PFloat.fdiv (.val r.localGivingSum) (.val r.envGivingSum)) (.val 100)
    giving_pct_of_revenue := PFloat.fmul (PFloat.fdiv (.val r.envGivingSum) (.val r.revenueSum)) (.val 100)
    incident_density := PFloat.fdiv (.val r.incidentSum) (.val (r.numCompanies : ℚ))
    givingToImpact := PFloat.fdiv (.val r.envGivingSum)
      (PFloat.fdiv (PFloat.fmul (.val r.avgImpact) (.val (r.numCompanies : ℚ))) (.val 100)) }

/-! ## Concrete sample inputs used by counterexamples and witnesses -/

/-- A concrete draw record used by counterexamples and witnesses. -/
def draws0 : Draws :=
  { stateIdx := 0
    industryIdx := 1
    sizeIdx := 0
    uRevenue := 0
    uBaseGivingPct := 0
    industryWordIdx := 0
    uNameStyle := 0
    namePfxIdx := 0
    nameSfxIdx := 0
    streetNumDraw := 0
    streetIdx := 0
    cityIdx := 0
    latNoise := 0
    lonNoise := 0
    transparencyNormal := 50
    metricNoise := [0, 0, 0, 0, 0]
    impactGamma := 20
    uEmissions := 0
    uWater := 0
    uWaste := 0
    uEnergy := 0
    uLoss := 0
    uRemediation := 0
    poissonCount := 0
    esgNoise := 0
    ncDraw := 1
    causeIdxs := [0, 1]
    dirichletWs := [1/2, 1/2]
    uLocalBeta := 0
    filingDaysAgo := 10
    uMkt := 0 }

/-- Concrete incident-generator input row. -/
def incInput0 : IncidentInput :=
  { company_id := 0
    company_name := "Global Tech Corp"
    state := "CA"
    industry := "Energy"
    size := "Small ($10M-$100M)"
    latitude := 37
    longitude := -95
    incident_count := some 2 }

/-- Concrete per-incident draw record. -/
def incDraws0 : IncidentDraws :=
  { sevIdx := 0
    typeIdx := 0
    latJitter := 0
    lonJitter := 0
    expDraw := 0
    countyDirIdx := 0
    countyFeatIdx := 0
    distanceLn := 1
    uEj := 1
    uPd := 0
    lagFast := 0
    lagSlow := 0
    ciOff := 0
    uRemCost := 0 }

/-! ## Claims -/

/-- Mapping from a transparency score to a reporting level as the
specification words it (fixed thresholds <20 Minimal, <40 Basic,
<60 Standard, <80 Detailed, else Comprehensive); stated from the spec text
for the refinement-equivalence claim C8. -/
def specReportingLevel (s : ℚ) : String :=
  if s < 20 then "Minimal"
  else if s < 40 then "Basic"
  else if s < 60 then "Standard"
  else if s < 80 then "Detailed"
  else "Comprehensive"

/-- Claim C8: the score-to-reporting-level mapping used for historical
records in `generate_historical_data` (lines 282-291) is the identical
function to the one used for current companies in `generate_corporate_data`
(lines 859-868), and both agree with the threshold table of the spec
(Minimal below 20, Basic below 40, Standard below 60, Detailed below 80,
Comprehensive otherwise) — proved for every rational score. -/
theorem claim_C8 (s : ℚ) :
    historicalReportingLevel s = reportingLevel s ∧
    reportingLevel s = specReportingLevel s :=
  ⟨rfl, rfl⟩

/-- Claim C10: every generated incident's `community_impact_rating`
(`min(5, severity + randint(-1, 2))`, line 474) lies in [0, 5] and never
exceeds `severity + 1`; concretely, with severity 1 and offset -1 the
rating is 0, one below the 1-5 severity scale. -/
theorem claim_C10 :
    (∀ (r : IncidentInput) (d : IncidentDraws) (now : ℤ),
      0 ≤ (generateIncident r d now).community_impact_rating ∧
      (generateIncident r d now).community_impact_rating ≤ 5 ∧
      (generateIncident r d now).community_impact_rating ≤
        ((generateIncident r d now).severity : ℤ) + 1) ∧
    (generateIncident incInput0 incDraws0 0).severity = 1 ∧
    (generateIncident incInput0 incDraws0 0).community_impact_rating = 0 := by
  refine ⟨?_, by decide, by decide⟩
  intro r d now
  have h1 := d.sevIdx.isLt
  have h2 := d.ciOff.isLt
  simp only [generateIncident]
  push_cast
  omega

/-- Claim C7: for every generated company, `esg_score` is the clamp to
[0, 100] of the exact linear composite
`60 + 10 * env_giving_pct - 0.1 * environmental_impact_score
+ 0.2 * transparency_score` of the company's own earlier-generated fields,
plus the noise draw (lines 929-945). -/
theorem claim_C7 (d : Draws) (i : ℕ) (now : ℤ) :
    (generateCompany d i now).esg_score =
      max 0 (min 100 (60 + 10 * (generateCompany d i now).env_giving_pct
        - (1/10) * (generateCompany d i now).environmental_impact_score
        + (2/10) * (generateCompany d i now).transparency_score + d.esgNoise)) := by
  simp only [generateCompany]
  congr 1
  congr 1
  ring

/-- Claim C1 is refuted by the code: the transparency year factor applied at
the final generated year (`current_year`, 2026 at evaluation time) is
`1 - 0.05 * (2026 - 2019) = 0.65`, not 1, so the final-year value of each
series (here evaluated with the noise term zeroed and the uniform factors at
their midpoint) understates the live current value instead of reproducing
it: a transparency score of 80 becomes 52, a giving of 100 becomes 51, an
impact of 100 becomes 86. -/
theorem claim_C1_bug :
    (historyYears 2026).getLastD 0 = 2026 ∧
    transparencyYearFactor 2026 = 7/20 ∧
    1 - transparencyYearFactor 2026 ≠ 1 ∧
    historicalTransparencyScore 80 2026 0 = 52 ∧
    historicalTransparencyScore 80 2026 0 ≠ 80 ∧
    historicalGivingValue 100 2026 (1/2) = 51 ∧
    historicalImpactValue 100 2026 (1/2) = 86 := by
  refine ⟨by decide, ?_, ?_, ?_, ?_, ?_, ?_⟩ <;>
    norm_num [transparencyYearFactor, historicalTransparencyScore,
      historicalGivingValue, givingYearFactor, historicalImpactValue, impactYearFactor]

/-- A one-company state group whose mean environmental impact is zero while
its total giving is positive. -/
def geoInput0 : GeoInput :=
  { env_giving := 5
    local_giving := 0
    national_giving := 5
    transparency := 50
    impact := 0
    incidents := 2
    esg := 50
    revenue := 100 }

/-- A one-company state group whose total giving (and local giving) is zero. -/
def geoInput1 : GeoInput :=
  { env_giving := 0
    local_giving := 0
    national_giving := 0
    transparency := 50
    impact := 30
    incidents := 2
    esg := 50
    revenue := 100 }

/-- Claim C2 is false as stated: on a state group with zero mean
environmental impact and positive total giving, `generate_geographic_data`
computes `giving_to_impact_ratio` as an unguarded float division by zero and
emits a positive infinity, and on a group with zero total giving it emits
NaN for `local_giving_pct`; neither divisor is guarded and the infinity is
not an explicit missing value. -/
theorem claim_C2_cx :
    (derivedMetrics (stateAggregate [geoInput0])).givingToImpact = PFloat.inf ∧
    (derivedMetrics (stateAggregate [geoInput1])).local_giving_pct = PFloat.nan := by
  constructor <;>
    norm_num [derivedMetrics, stateAggregate, geoInput0, geoInput1, PFloat.fdiv, PFloat.fmul]

/-- Claim C2, amended: the division of lines 60-78 is unguarded IEEE float
arithmetic, so whenever a state row has zero mean environmental impact and
positive total giving, the emitted `giving_to_impact_ratio` is a positive
infinity (and a zero total giving yields NaN for `local_giving_pct`, as the
counterexample shows); no derived field is replaced by an explicit missing
value (only the `ej_incident` columns of lines 89-94 are `fillna`-guarded). -/
theorem claim_C2_amended (r : GeoRow) (h1 : r.avgImpact = 0)
    (h2 : 0 < r.envGivingSum) :
    (derivedMetrics r).givingToImpact = PFloat.inf := by
  unfold derivedMetrics
  have e1 : PFloat.fmul (.val r.avgImpact) (.val (r.numCompanies : ℚ)) = .val 0 := by
    rw [h1]; simp [PFloat.fmul]
  rw [e1]
  have e2 : PFloat.fdiv (.val 0) (.val 100) = .val 0 := by
    norm_num [PFloat.fdiv]
  rw [e2]
  simp [PFloat.fdiv, h2, h2.ne.symm]

/-- Witness for the amended claim C2 at the concrete zero-impact group. -/
theorem claim_C2_amended_w :
    (stateAggregate [geoInput0]).avgImpact = 0 ∧
    0 < (stateAggregate [geoInput0]).envGivingSum ∧
    (derivedMetrics (stateAggregate [geoInput0])).givingToImpact = PFloat.inf := by
  have h1 : (stateAggregate [geoInput0]).avgImpact = 0 := by
    norm_num [stateAggregate, geoInput0]
  have h2 : 0 < (stateAggregate [geoInput0]).envGivingSum := by
    norm_num [stateAggregate, geoInput0]
  exact ⟨h1, h2, claim_C2_amended _ h1 h2⟩

/-- Claim C3 is false as stated: `generate_corporate_data` takes no seed and
its output is not a function of the pseudo-random stream and the count
alone — with identical draws and count, two calls at different clock values
differ (through `date_of_filing = now - randint(0, 365)`, lines 977-979). -/
theorem claim_C3_cx :
    generateCompanies (fun _ => draws0) 1 0 ≠ generateCompanies (fun _ => draws0) 1 1 := by
  intro h
  have hd := congrArg (fun l => (l.headD (generateCompany draws0 0 0)).date_of_filing) h
  simp only [generateCompanies, List.range_succ, List.range_zero, List.nil_append,
    List.map_cons, List.map_nil, List.headD_cons, generateCompany] at hd
  omega

/-- Claim C3, amended: the generator reads the process-global random state
(no seed parameter exists anywhere in the repository) and additionally
depends on the wall clock; holding the draw stream and count fixed, every
column except `date_of_filing` is independent of the clock, and
`date_of_filing` equals the clock value minus the bounded filing-age draw.
Two calls with identical global random state and identical clock therefore
coincide, and differ otherwise exactly in the date column. -/
theorem claim_C3_amended (d : ℕ → Draws) (n : ℕ) (t1 t2 : ℤ) :
    (generateCompanies d n t1).map companyStatic = (generateCompanies d n t2).map companyStatic ∧
    ∀ (dd : Draws) (i : ℕ) (t : ℤ),
      (generateCompany dd i t).date_of_filing = t - ((dd.filingDaysAgo % 365 : ℕ) : ℤ) := by
  constructor
  · simp only [generateCompanies, List.map_map]
    rfl
  · intro dd i t
    rfl

/-- Draws whose latitude noise is a 5-sigma Gaussian sample. -/
def draws1 : Draws := { draws0 with latNoise := 15 }

/-- Claim C4 is false as stated: company coordinates (lines 827-828) are
`37.0902 + Normal(0,3)` and `-95.7129 + Normal(0,5)` with no clamp, so a
latitude-noise draw of 15 puts the generated company at latitude 52.0902,
outside the continental-US band [25, 49]. -/
theorem claim_C4_cx :
    ¬ (25 ≤ (generateCompany draws1 0 0).latitude ∧
       (generateCompany draws1 0 0).latitude ≤ 49) := by
  intro h
  have h2 := h.2
  simp only [generateCompany, draws1, draws0] at h2
  norm_num at h2

/-- Claim C4, amended: company latitude and longitude are exactly
`37.0902 + latNoise` and `-95.7129 + lonNoise` (unclamped Gaussian jitter,
lines 827-828), and they lie within [25, 49] x [-125, -65] precisely when
the noise draws lie within [-12.0902, 11.9098] and [-29.2871, 30.7129]
respectively; only incident coordinates are clamped to those bounds. -/
theorem claim_C4_amended (d : Draws) (i : ℕ) (now : ℤ) :
    (generateCompany d i now).latitude = 370902/10000 + d.latNoise ∧
    (generateCompany d i now).longitude = -957129/10000 + d.lonNoise ∧
    ((25 ≤ (generateCompany d i now).latitude ∧
      (generateCompany d i now).latitude ≤ 49) ↔
     (-120902/10000 ≤ d.latNoise ∧ d.latNoise ≤ 119098/10000)) ∧
    ((-125 ≤ (generateCompany d i now).longitude ∧
      (generateCompany d i now).longitude ≤ -65) ↔
     (-292871/10000 ≤ d.lonNoise ∧ d.lonNoise ≤ 307129/10000)) := by
  have hl : (generateCompany d i now).latitude = 370902/10000 + d.latNoise := rfl
  have hg : (generateCompany d i now).longitude = -957129/10000 + d.lonNoise := rfl
  refine ⟨hl, hg, ?_, ?_⟩
  · rw [hl]
    constructor <;> rintro ⟨a, b⟩ <;> exact ⟨by linarith, by linarith⟩
  · rw [hg]
    constructor <;> rintro ⟨a, b⟩ <;> exact ⟨by linarith, by linarith⟩

/-- Coordinates of every generated incident are clamped into the
continental-US box by lines 436-437. -/
lemma generateIncident_coord_bounds (r : IncidentInput) (dr : IncidentDraws) (now : ℤ) :
    25 ≤ (generateIncident r dr now).latitude ∧ (generateIncident r dr now).latitude ≤ 49 ∧
    -125 ≤ (generateIncident r dr now).longitude ∧ (generateIncident r dr now).longitude ≤ -65 := by
  have hlat : (generateIncident r dr now).latitude
      = max 25 (min 49 (r.latitude + dr.latJitter)) := rfl
  have hlon : (generateIncident r dr now).longitude
      = max (-125) (min (-65) (r.longitude + dr.lonJitter)) := rfl
  rw [hlat, hlon]
  refine ⟨le_max_left _ _, ?_, le_max_left _ _, ?_⟩
  · exact max_le (by norm_num) (min_le_left _ _)
  · exact max_le (by norm_num) (min_le_left _ _)

/-- Every member of a per-company incident list is a `generateIncident`
result for that company. -/
lemma mem_incidentsForRow {inc : Incident} {r : IncidentInput} {dr : ℕ → IncidentDraws}
    {now : ℤ} (h : inc ∈ incidentsForRow r dr now) :
    ∃ j, inc = generateIncident r (dr j) now := by
  rcases hc : r.incident_count with _ | c <;> simp only [incidentsForRow, hc] at h
  · simp at h
  · by_cases hpos : 0 < c
    · rw [if_pos hpos] at h
      obtain ⟨j, hj, hje⟩ := List.mem_map.mp h
      exact ⟨j, hje.symm⟩
    · rw [if_neg hpos] at h
      simp at h

/-- The per-company incident count produced by lines 409-411: zero for a
missing or non-positive count, the `int` truncation otherwise. -/
lemma incidentsForRow_length (r : IncidentInput) (dr : ℕ → IncidentDraws) (now : ℤ)
    (h : ∀ c ∈ r.incident_count, (0:ℚ) ≤ c) :
    (incidentsForRow r dr now).length =
      (match r.incident_count with
       | none => 0
       | some c => (⌊c⌋).toNat) := by
  rcases hc : r.incident_count with _ | c
  · simp [incidentsForRow, hc]
  · have h0 : (0:ℚ) ≤ c := h c hc
    by_cases hpos : 0 < c
    · simp [incidentsForRow, hc, hpos]
    · have hz : c = 0 := le_antisymm (not_lt.mp hpos) h0
      subst hz
      simp [incidentsForRow, hc]

/-- Claim C5: for every input company population whose incident counts are
nonnegative where present, `generate_incident_data` produces exactly
`int(incident_count)` rows per company (zero for a zero or missing count),
and every produced incident has latitude in [25, 49] and longitude in
[-125, -65] (the clamp of lines 436-437). -/
theorem claim_C5 (rows : List IncidentInput) (d : ℕ → ℕ → IncidentDraws) (now : ℤ)
    (hn : ∀ r ∈ rows, ∀ c ∈ r.incident_count, (0:ℚ) ≤ c) :
    (∀ r ∈ rows, ∀ dr : ℕ → IncidentDraws,
      (incidentsForRow r dr now).length =
        (match r.incident_count with
         | none => 0
         | some c => (⌊c⌋).toNat)) ∧
    (∀ inc ∈ (generate_incident_data rows d now).rows,
      25 ≤ inc.latitude ∧ inc.latitude ≤ 49 ∧
      -125 ≤ inc.longitude ∧ inc.longitude ≤ -65) := by
  constructor
  · intro r hr dr
    exact incidentsForRow_length r dr now (hn r hr)
  · intro inc hmem
    simp only [generate_incident_data] at hmem
    by_cases he : ((rows.enum.map fun p => incidentsForRow p.2 (d p.1) now).flatten).isEmpty
    · rw [if_pos he] at hmem
      simp at hmem
    · rw [if_neg he] at hmem
      obtain ⟨l, hl, hincl⟩ := List.mem_flatten.mp hmem
      obtain ⟨p, hp, rfl⟩ := List.mem_map.mp hl
      obtain ⟨j, rfl⟩ := mem_incidentsForRow hincl
      exact generateIncident_coord_bounds _ _ _

/-- An input population for the incident-generator witnesses: a 2-incident
company, a missing-count company and a zero-count company. -/
def incRows0 : List IncidentInput :=
  [incInput0,
   { incInput0 with incident_count := none },
   { incInput0 with incident_count := some 0 }]

/-- Witness for claim C5 at a concrete population. -/
theorem claim_C5_w :
    (∀ r ∈ incRows0, ∀ c ∈ r.incident_count, (0:ℚ) ≤ c) ∧
    ((∀ r ∈ incRows0, ∀ dr : ℕ → IncidentDraws,
      (incidentsForRow r dr 0).length =
        (match r.incident_count with
         | none => 0
         | some c => (⌊c⌋).toNat)) ∧
    (∀ inc ∈ (generate_incident_data incRows0 (fun _ _ => incDraws0) 0).rows,
      25 ≤ inc.latitude ∧ inc.latitude ≤ 49 ∧
      -125 ≤ inc.longitude ∧ inc.longitude ≤ -65)) := by
  have hn : ∀ r ∈ incRows0, ∀ c ∈ r.incident_count, (0:ℚ) ≤ c := by
    intro r hr c hc
    fin_cases hr <;> simp_all [incRows0, incInput0]
    all_goals linarith
  exact ⟨hn, claim_C5 incRows0 (fun _ _ => incDraws0) 0 hn⟩

/-- A company whose incident count is missing or zero contributes no
incident rows. -/
lemma incidentsForRow_nil (r : IncidentInput) (dr : ℕ → IncidentDraws) (now : ℤ)
    (h : r.incident_count = none ∨ r.incident_count = some 0) :
    incidentsForRow r dr now = [] := by
  rcases h with h | h <;> simp [incidentsForRow, h]

/-- Claim C9: when every company's incident count is zero or missing (or the
population is empty), `generate_incident_data` returns an empty table that
still carries the fixed 18-column incident schema of lines 506-512, from
`company_id` through `community_impact_rating`. -/
theorem claim_C9 (rows : List IncidentInput) (d : ℕ → ℕ → IncidentDraws) (now : ℤ)
    (h : ∀ r ∈ rows, r.incident_count = none ∨ r.incident_count = some 0) :
    generate_incident_data rows d now = ⟨incidentEmptyColumns, []⟩ ∧
    incidentEmptyColumns.length = 18 ∧
    incidentEmptyColumns.headD "" = "company_id" ∧
    incidentEmptyColumns.getLastD "" = "community_impact_rating" := by
  have hdata : (rows.enum.map fun p => incidentsForRow p.2 (d p.1) now).flatten = [] := by
    apply List.flatten_eq_nil_iff.mpr
    intro l hl
    obtain ⟨p, hp, rfl⟩ := List.mem_map.mp hl
    exact incidentsForRow_nil _ _ _ (h p.2 (List.snd_mem_of_mem_enum hp))
  refine ⟨?_, rfl, rfl, rfl⟩
  simp only [generate_incident_data]
  rw [hdata]
  rfl

/-- Witness for claim C9 at a concrete population with one missing and one
zero count. -/
theorem claim_C9_w :
    (∀ r ∈ [({ incInput0 with incident_count := none } : IncidentInput),
            { incInput0 with incident_count := some 0 }],
      r.incident_count = none ∨ r.incident_count = some 0) ∧
    generate_incident_data
      [({ incInput0 with incident_count := none } : IncidentInput),
       { incInput0 with incident_count := some 0 }] (fun _ _ => incDraws0) 0
      = ⟨incidentEmptyColumns, []⟩ := by
  have h : ∀ r ∈ [({ incInput0 with incident_count := none } : IncidentInput),
            { incInput0 with incident_count := some 0 }],
      r.incident_count = none ∨ r.incident_count = some 0 := by
    intro r hr
    fin_cases hr
    · left; rfl
    · right; rfl
  exact ⟨h, (claim_C9 _ (fun _ _ => incDraws0) 0 h).1⟩

/-- Every size-tier row (and the lookup fallback) has minimum revenue at
least 10 and a nonnegative revenue span. -/
lemma sizeRow_facts (j : ℕ) :
    10 ≤ (sizesTable.getD j dfltSize).minRev ∧
    (sizesTable.getD j dfltSize).minRev ≤ (sizesTable.getD j dfltSize).maxRev := by
  rcases j with _ | _ | _ | _ | n <;>
    norm_num [sizesTable, dfltSize, List.getD_cons_zero, List.getD_cons_succ, List.getD_nil]

/-- A nonnegative uniform draw keeps the sampled revenue positive. -/
lemma revenueOf_pos (d : Draws) (h : 0 ≤ d.uRevenue) : 0 < revenueOf d := by
  obtain ⟨h1, h2⟩ := sizeRow_facts d.sizeIdx.val
  unfold revenueOf sizeOfDraws
  have h3 : 0 ≤ ((sizesTable.getD d.sizeIdx.val dfltSize).maxRev -
      (sizesTable.getD d.sizeIdx.val dfltSize).minRev) * d.uRevenue :=
    mul_nonneg (by linarith) h
  linarith

/-- The base giving percentage `0.01 + 0.49 * u` is positive for `u ≥ 0`. -/
lemma baseGivingPctOf_pos (d : Draws) (h : 0 ≤ d.uBaseGivingPct) : 0 < baseGivingPctOf d := by
  unfold baseGivingPctOf
  have h2 : 0 ≤ (5/10 - 1/100 : ℚ) * d.uBaseGivingPct := mul_nonneg (by norm_num) h
  linarith

/-- All industry giving factors are positive. -/
lemma givingFactor_pos (t : ImpactTier) : 0 < givingFactor t := by
  cases t <;> norm_num [givingFactor]

/-- All size giving factors are positive. -/
lemma sizeGivingFactor_pos (s : String) : 0 < sizeGivingFactor s := by
  unfold sizeGivingFactor
  split_ifs <;> norm_num

/-- The sampled environmental giving amount is positive for nonnegative
uniform draws. -/
lemma envGivingOf_pos (d : Draws) (h1 : 0 ≤ d.uRevenue) (h2 : 0 ≤ d.uBaseGivingPct) :
    0 < envGivingOf d := by
  unfold envGivingOf
  refine mul_pos (revenueOf_pos d h1) (div_pos ?_ (by norm_num))
  unfold envGivingPctOf
  exact mul_pos (mul_pos (baseGivingPctOf_pos d h2) (givingFactor_pos _)) (sizeGivingFactor_pos _)

/-- Second components of the zipped cause split are the scaled weights. -/
lemma zipWith_snd_map {α : Type} (k : α → String) (g : ℚ) :
    ∀ (xs : List α) (ys : List ℚ), xs.length = ys.length →
      (List.zipWith (fun c w => (k c, g * w)) xs ys).map Prod.snd = ys.map (fun w => g * w) := by
  intro xs
  induction xs with
  | nil =>
      intro ys h
      cases ys with
      | nil => rfl
      | cons y ys => simp at h
  | cons x xs ih =>
      intro ys h
      cases ys with
      | nil => simp at h
      | cons y ys =>
          simp only [List.zipWith_cons_cons, List.map_cons]
          rw [ih ys (by simpa using h)]

/-- Scaling every element of a list scales its sum. -/
lemma sum_map_mul (g : ℚ) : ∀ ys : List ℚ, (ys.map fun w => g * w).sum = g * ys.sum := by
  intro ys
  induction ys with
  | nil => simp
  | cons y ys ih => simp [ih, mul_add]

/-- Claim C6: for every generated company whose Dirichlet weight vector is
positive and sums to 1 (as `np.random.dirichlet` guarantees, lines 967-970)
and whose uniform revenue and base-giving draws are valid (nonnegative),
the per-cause-area giving amounts are each positive and sum exactly to
`env_giving_millions`. -/
theorem claim_C6 (d : Draws) (i : ℕ) (now : ℤ)
    (h1 : 0 ≤ d.uRevenue) (h2 : 0 ≤ d.uBaseGivingPct)
    (hc : numCausesOf d ≤ d.causeIdxs.length)
    (hw : d.dirichletWs.length = numCausesOf d)
    (hpos : ∀ w ∈ d.dirichletWs, 0 < w)
    (hsum : d.dirichletWs.sum = 1) :
    (∀ p ∈ (generateCompany d i now).cause_amounts, 0 < p.2) ∧
    ((generateCompany d i now).cause_amounts.map Prod.snd).sum =
      (generateCompany d i now).env_giving_millions := by
  have hg : (0:ℚ) < envGivingOf d := envGivingOf_pos d h1 h2
  have hca : (generateCompany d i now).cause_amounts = causeAmountsOf d := rfl
  have hgm : (generateCompany d i now).env_giving_millions = envGivingOf d := rfl
  rw [hca, hgm]
  have htake : d.dirichletWs.take (numCausesOf d) = d.dirichletWs := by
    rw [← hw]
    exact List.take_length _
  have hlen : (selectedCausesOf d).length = d.dirichletWs.length := by
    simp only [selectedCausesOf, List.length_map, List.length_take, hw]
    omega
  have hmap : (causeAmountsOf d).map Prod.snd
      = d.dirichletWs.map (fun w => envGivingOf d * w) := by
    unfold causeAmountsOf
    rw [htake]
    exact zipWith_snd_map _ _ _ _ hlen
  constructor
  · intro p hp
    have h3 : p.2 ∈ (causeAmountsOf d).map Prod.snd := List.mem_map_of_mem _ hp
    rw [hmap] at h3
    obtain ⟨w, hwmem, hweq⟩ := List.mem_map.mp h3
    rw [← hweq]
    exact mul_pos hg (hpos w hwmem)
  · rw [hmap, sum_map_mul, hsum, mul_one]

/-- Witness for claim C6 at the concrete draw record `draws0`
(two causes, weights one half each). -/
theorem claim_C6_w :
    0 ≤ draws0.uRevenue ∧ 0 ≤ draws0.uBaseGivingPct ∧
    numCausesOf draws0 ≤ draws0.causeIdxs.length ∧
    draws0.dirichletWs.length = numCausesOf draws0 ∧
    (∀ w ∈ draws0.dirichletWs, 0 < w) ∧
    draws0.dirichletWs.sum = 1 ∧
    (∀ p ∈ (generateCompany draws0 0 0).cause_amounts, 0 < p.2) ∧
    ((generateCompany draws0 0 0).cause_amounts.map Prod.snd).sum =
      (generateCompany draws0 0 0).env_giving_millions := by
  have h1 : (0:ℚ) ≤ draws0.uRevenue := by norm_num [draws0]
  have h2 : (0:ℚ) ≤ draws0.uBaseGivingPct := by norm_num [draws0]
  have hc : numCausesOf draws0 ≤ draws0.causeIdxs.length := by decide
  have hw : draws0.dirichletWs.length = numCausesOf draws0 := by decide
  have hpos : ∀ w ∈ draws0.dirichletWs, 0 < w := by
    intro w hwm
    simp [draws0] at hwm
    subst hwm
    norm_num
  have hsum : draws0.dirichletWs.sum = 1 := by norm_num [draws0]
  have hmain := claim_C6 draws0 0 0 h1 h2 hc hw hpos hsum
  exact ⟨h1, h2, hc, hw, hpos, hsum, hmain.1, hmain.2⟩

end SeedGen
